import Mathlib

/-!
Shallow embedding of the StudyFlow study-assistant application
(`core/models.py`, `core/services.py`, `core/views.py`) in Lean 4,
together with theorems settling the specification claims about
progress bookkeeping, streak/retention updates, quiz scoring, and the
error-handling contracts of the Gemini service adapters.

Conventions:
  * Python `int` database fields holding counts are modelled as `Nat`
    (all values reachable by the modelled operations are non-negative);
    `int(x)` applied to a non-negative quotient is truncating division.
  * Dates are modelled as day ordinals (`Nat`), so "yesterday" is
    `today - 1`.
  * Calls into the external Gemini service are inputs of the embedded
    functions: an `Except String α` value is either the value the call
    returned or the message of the exception it raised.
-/

namespace StudyFlow

/-! ## CourseProgress (`core/models.py`, `CourseProgress`) -/

/-- The fields of `CourseProgress` relevant to progress recomputation. -/
structure CourseProgressS where
  total_files : Nat
  completed_files : Nat
  progress_percentage : Nat
  status : String
deriving DecidableEq, Repr

/-- `CourseProgress.update_progress` (models.py): recompute
`progress_percentage` as `int((completed_files / total_files) * 100)`
(0 when `total_files` is 0) and derive `status` from the percentage. -/
def CourseProgressS.update_progress (p : CourseProgressS) : CourseProgressS :=
  let pct : Nat :=
    if p.total_files > 0 then (100 * p.completed_files) / p.total_files else 0
  let st : String :=
    if pct = 0 then "not_started"
    else if pct = 100 then "completed"
    else "in_progress"
  { p with progress_percentage := pct, status := st }

/-- The `CourseProgress` half of `FileProgress.mark_completed`
(models.py): increment `completed_files` on the owning course's
progress row, then recompute via `update_progress`. -/
def CourseProgressS.mark_completed_step (p : CourseProgressS) : CourseProgressS :=
  CourseProgressS.update_progress { p with completed_files := p.completed_files + 1 }

/-! ## Retention metric upsert (`core/services.py`,
`update_user_stats_on_chat`, lines 367-381) -/

/-- One chat-turn update of today's `RetentionMetric` score:
`none` means no row exists yet for (user, today). The code creates the
row with score 15, or bumps an existing row to `min(100, score + 5)`. -/
def retention_step : Option Nat → Nat
  | none => 15
  | some s => min 100 (s + 5)

/-- The stored score for today after `n` same-day chat turns, starting
from no row (`none`). -/
def retention_after : Nat → Option Nat
  | 0 => none
  | n + 1 => some (retention_step (retention_after n))

/-! ## Streak update (`core/services.py`, `update_user_stats_on_chat`,
lines 350-362) -/

/-- The fields of `UserStats` touched by `update_user_stats_on_chat`.
`last_activity_date` holds a day ordinal (`none`: never active). -/
structure UserStatsS where
  current_streak : Int
  last_activity_date : Option Nat
deriving DecidableEq, Repr

/-- The streak portion of `update_user_stats_on_chat` (services.py),
statement for statement: the code first assigns
`user_stats.last_activity_date = timezone.now()` and only then reads
`last_activity = user_stats.last_activity_date.date()` for the
comparison against today and yesterday. -/
def update_streak (today : Nat) (s : UserStatsS) : UserStatsS :=
  let s1 : UserStatsS := { s with last_activity_date := some today }
  let last_activity : Option Nat := s1.last_activity_date
  if last_activity = some today then
    s1
  else if last_activity = some (today - 1) then
    { s1 with current_streak := s1.current_streak + 1 }
  else
    { s1 with current_streak := 1 }

/-- Modelled from the spec: "if last-activity date == today, streak is
unchanged; if == yesterday, streak increments by 1; otherwise streak
resets to 1", reading the STORED last-activity date (what the claim
asserts the code compares against). -/
def update_streak_spec (today : Nat) (s : UserStatsS) : UserStatsS :=
  if s.last_activity_date = some today then
    { s with last_activity_date := some today }
  else if s.last_activity_date = some (today - 1) then
    { s with last_activity_date := some today, current_streak := s.current_streak + 1 }
  else
    { s with last_activity_date := some today, current_streak := 1 }

/-! ## Quiz scoring (`core/models.py`, `QuizAttempt.calculate_score`) -/

/-- A stored quiz question: only the `correct` key matters to scoring
(`question.get('correct')`, absent key gives `none`). -/
structure QQuestion where
  correct : Option Int
deriving DecidableEq, Repr

/-- `self.answers.get(str(idx))`: the attempt's answer map is a JSON
object keyed by the decimal string of the question index. -/
def lookupAnswer (answers : List (String × Int)) (k : String) : Option Int :=
  (answers.find? (fun p => p.1 = k)).map (fun p => p.2)

/-- The loop body of `calculate_score`: question `idx` counts iff
`selected is not None and selected == correct`. -/
def answerMatches (answers : List (String × Int)) (p : Nat × QQuestion) : Bool :=
  match lookupAnswer answers (toString p.1), p.2.correct with
  | some sel, some cor => sel = cor
  | some _, none => false
  | none, _ => false

/-- `correct_count` as accumulated by `calculate_score`'s
`for idx, question in enumerate(self.quiz.questions)` loop. -/
def correct_count (questions : List QQuestion) (answers : List (String × Int)) : Nat :=
  (questions.enum.countP (answerMatches answers))

/-- `QuizAttempt.calculate_score` (models.py): returns 0 when the
question list is empty, else stores and returns
`int((correct_count / len(questions)) * 100)`. -/
def calculate_score (questions : List QQuestion) (answers : List (String × Int)) : Nat :=
  if questions.isEmpty then 0
  else (100 * correct_count questions answers) / questions.length

/-- Rounding to the nearest integer, `round(100 * c / t)` as the claim
states the percentage formula (stated for `t > 0`; exact halves round
up here, which agrees with Python on the inputs we use). -/
def roundPct (c t : Nat) : Nat := (200 * c + t) / (2 * t)

/-! ## Markdown stripping (`core/services.py`,
`GeminiService._remove_markdown_formatting`)

Each `re.sub` of the Python function is implemented directly on
`List Char`, reproducing the Python `re` semantics of each concrete
pattern: leftmost non-overlapping matches, non-greedy `(.*?)` taking
the earliest closing delimiter, `.` never matching a newline (the
`DOTALL`-flagged code-fence pattern excepted), and `^` in `MULTILINE`
mode matching at the string start and after each newline.  The scanning
functions carry a fuel argument for termination; every recursive call
consumes at least one input character, so fuel `length + 1` never runs
out. -/

/-- Python `\s` over ASCII: space, tab, newline, carriage return,
vertical tab, form feed. -/
def isPySpace (c : Char) : Bool :=
  c = ' ' || c = '\t' || c = '\n' || c = '\r' ||
  c = Char.ofNat 11 || c = Char.ofNat 12

/-- The backtick character. -/
def bq : Char := Char.ofNat 96

/-- Python `str.strip()` on a character list. -/
def pyStripL (l : List Char) : List Char :=
  ((l.dropWhile isPySpace).reverse.dropWhile isPySpace).reverse

/-- Python `str.strip()`. -/
def pyStrip (s : String) : String := String.mk (pyStripL s.data)

/-- Non-greedy scan for a single closing delimiter `d`, as in
`\*(.*?)\*`: returns the group content and the remainder after the
closing delimiter, or `none` if a newline or the end of input is
reached first (`.` does not match a newline). -/
def findClose1 (d : Char) : List Char → Option (List Char × List Char)
  | [] => none
  | c :: cs =>
    if c = d then some ([], cs)
    else if c = '\n' then none
    else
      match findClose1 d cs with
      | some (content, rest) => some (c :: content, rest)
      | none => none

/-- Non-greedy scan for a doubled closing delimiter `d d`, as in
`\*\*(.*?)\*\*`: the earliest position where two consecutive `d`s
follow newline-free content closes the match. -/
def findClose2 (d : Char) : List Char → Option (List Char × List Char)
  | [] => none
  | [_] => none
  | c :: c2 :: cs =>
    if c = d && c2 = d then some ([], cs)
    else if c = '\n' then none
    else
      match findClose2 d (c2 :: cs) with
      | some (content, rest) => some (c :: content, rest)
      | none => none

/-- Non-greedy scan for a closing triple backtick with `DOTALL`
content, as in `` ```(.*?)``` ``. -/
def findClose3 : List Char → Option (List Char × List Char)
  | a :: b :: c :: rest =>
    if a = bq && b = bq && c = bq then some ([], rest)
    else
      match findClose3 (b :: c :: rest) with
      | some (content, r) => some (a :: content, r)
      | none => none
  | _ => none

/-- `re.sub(r'd(.*?)d', r'\1', text)` for a single-character delimiter
`d` (the `*`, `_` italic passes and the backtick inline-code pass). -/
def subPair1 (d : Char) : Nat → List Char → List Char
  | 0, l => l
  | _ + 1, [] => []
  | fuel + 1, c :: cs =>
    if c = d then
      match findClose1 d cs with
      | some (content, rest) => content ++ subPair1 d fuel rest
      | none => c :: subPair1 d fuel cs
    else c :: subPair1 d fuel cs

/-- `re.sub(r'dd(.*?)dd', r'\1', text)` for a doubled delimiter
(the `**` and `__` bold passes). -/
def subPair2 (d : Char) : Nat → List Char → List Char
  | 0, l => l
  | _ + 1, [] => []
  | fuel + 1, c :: cs =>
    if c = d then
      match cs with
      | c2 :: cs2 =>
        if c2 = d then
          match findClose2 d cs2 with
          | some (content, rest) => content ++ subPair2 d fuel rest
          | none => c :: subPair2 d fuel cs
        else c :: subPair2 d fuel cs
      | [] => [c]
    else c :: subPair2 d fuel cs

/-- `re.sub(r'```(.*?)```', r'\1', text, flags=re.DOTALL)`. -/
def subCodeBlock : Nat → List Char → List Char
  | 0, l => l
  | fuel + 1, a :: b :: c :: rest =>
    if a = bq && b = bq && c = bq then
      match findClose3 rest with
      | some (content, r) => content ++ subCodeBlock fuel r
      | none => a :: subCodeBlock fuel (b :: c :: rest)
    else a :: subCodeBlock fuel (b :: c :: rest)
  | _ + 1, l => l

/-- `re.sub(r'^#+\s+', '', text, flags=re.MULTILINE)`. `atStart` tracks
whether the current scan position is the string start or preceded by a
newline; `\s+` is greedy and may consume newlines, in which case the
position after the match is again a line start. -/
def subHeading : Nat → Bool → List Char → List Char
  | 0, _, l => l
  | _ + 1, _, [] => []
  | fuel + 1, atStart, c :: cs =>
    if atStart && c = '#' then
      let rest1 := (c :: cs).dropWhile (fun x => x = '#')
      if rest1.head?.any isPySpace then
        let ws := rest1.takeWhile isPySpace
        let rest2 := rest1.dropWhile isPySpace
        subHeading fuel (ws.getLast? == some '\n') rest2
      else c :: subHeading fuel false cs
    else c :: subHeading fuel (c == '\n') cs

/-- `re.sub(r'^\d+\.\s+', '', text, flags=re.MULTILINE)`. -/
def subNumbered : Nat → Bool → List Char → List Char
  | 0, _, l => l
  | _ + 1, _, [] => []
  | fuel + 1, atStart, c :: cs =>
    if atStart && c.isDigit then
      let rest1 := (c :: cs).dropWhile Char.isDigit
      match rest1 with
      | dot :: rest2 =>
        if dot = '.' && rest2.head?.any isPySpace then
          let ws := rest2.takeWhile isPySpace
          let rest3 := rest2.dropWhile isPySpace
          subNumbered fuel (ws.getLast? == some '\n') rest3
        else c :: subNumbered fuel false cs
      | [] => c :: subNumbered fuel false cs
    else c :: subNumbered fuel (c == '\n') cs

/-- `re.sub(r'^\s*[-*+]\s+', '', text, flags=re.MULTILINE)`: at a line
start, a greedy (possibly newline-crossing) whitespace run, a list
marker, and at least one further whitespace character. -/
def subBullet : Nat → Bool → List Char → List Char
  | 0, _, l => l
  | _ + 1, _, [] => []
  | fuel + 1, atStart, c :: cs =>
    if atStart then
      let rest1 := (c :: cs).dropWhile isPySpace
      match rest1 with
      | m :: rest2 =>
        if (m = '-' || m = '*' || m = '+') && rest2.head?.any isPySpace then
          let ws := rest2.takeWhile isPySpace
          let rest3 := rest2.dropWhile isPySpace
          subBullet fuel (ws.getLast? == some '\n') rest3
        else c :: subBullet fuel (c == '\n') cs
      | [] => c :: subBullet fuel (c == '\n') cs
    else c :: subBullet fuel (c == '\n') cs

/-- Scan for the closing `)` of a link URL group (`(.*?)\)`,
newline-free); returns the remainder after the `)`. -/
def findParen : List Char → Option (List Char)
  | [] => none
  | c :: cs =>
    if c = ')' then some cs
    else if c = '\n' then none
    else findParen cs

/-- After an opening `[`, find `](`, then a `)`-terminated URL group,
with the regex engine's backtracking: if a candidate `](` has no
closing `)` before a newline or the end, the text group absorbs it and
the scan continues. Returns the text group and the remainder after the
full match. -/
def findLinkRest : List Char → Option (List Char × List Char)
  | [] => none
  | c :: cs =>
    if c = '\n' then none
    else
      let fallback : Option (List Char × List Char) :=
        match findLinkRest cs with
        | some (t, r) => some (c :: t, r)
        | none => none
      if c = ']' then
        match cs with
        | p :: cs2 =>
          if p = '(' then
            match findParen cs2 with
            | some r => some ([], r)
            | none => fallback
          else fallback
        | [] => fallback
      else fallback

/-- `re.sub(r'\[(.*?)\]\((.*?)\)', r'\1', text)`. -/
def subLink : Nat → List Char → List Char
  | 0, l => l
  | _ + 1, [] => []
  | fuel + 1, c :: cs =>
    if c = '[' then
      match findLinkRest cs with
      | some (textPart, rest) => textPart ++ subLink fuel rest
      | none => c :: subLink fuel cs
    else c :: subLink fuel cs

/-- `re.sub(r'\n{3,}', '\n\n', text)`: a greedy maximal run of three or
more newlines collapses to exactly two. -/
def collapseNewlines : Nat → List Char → List Char
  | 0, l => l
  | _ + 1, [] => []
  | fuel + 1, c :: cs =>
    if c = '\n' then
      let run := (c :: cs).takeWhile (fun x => x = '\n')
      let rest := (c :: cs).dropWhile (fun x => x = '\n')
      if 3 ≤ run.length then '\n' :: '\n' :: collapseNewlines fuel rest
      else run ++ collapseNewlines fuel rest
    else c :: collapseNewlines fuel cs

/-- `GeminiService._remove_markdown_formatting` on a character list:
the eleven substitution passes in source order, then `strip()`. -/
def removeMarkdownL (l : List Char) : List Char :=
  let t1 := subPair2 '*' (l.length + 1) l
  let t2 := subPair2 '_' (t1.length + 1) t1
  let t3 := subPair1 '*' (t2.length + 1) t2
  let t4 := subPair1 '_' (t3.length + 1) t3
  let t5 := subHeading (t4.length + 1) true t4
  let t6 := subPair1 bq (t5.length + 1) t5
  let t7 := subCodeBlock (t6.length + 1) t6
  let t8 := subNumbered (t7.length + 1) true t7
  let t9 := subBullet (t8.length + 1) true t8
  let t10 := subLink (t9.length + 1) t9
  let t11 := collapseNewlines (t10.length + 1) t10
  pyStripL t11

/-- `GeminiService._remove_markdown_formatting`. -/
def remove_markdown_formatting (s : String) : String :=
  String.mk (removeMarkdownL s.data)

/-! ## Chat adapter (`core/services.py`, `GeminiService.chat`) -/

/-- The outcome of the `generate_content` call and the subsequent
attribute accesses, as seen by `chat`'s try block: either an exception
with its message, or a response value. `returned none` models a falsy
response object or one without a `text` attribute; `returned (some t?)`
models a response whose `text` attribute is `t?` (`none` = `None`). -/
inductive ChatOutcome where
  | raised (msg : String)
  | returned (resp : Option (Option String))
deriving DecidableEq, Repr

/-- The fixed fallback string `chat` returns for empty model output. -/
def chatFallback : String :=
  "I couldn't generate a response. Please try rephrasing your question."

/-- `GeminiService.chat`'s response handling (services.py lines
163-184): invalid response object → fixed error string; `None` or
whitespace-only text → fixed fallback; otherwise the stripped text with
markdown removed; any exception → `"Error: <message>"`. -/
def chat (outcome : ChatOutcome) : String :=
  match outcome with
  | .raised msg => "Error: " ++ msg
  | .returned none => "Error: Invalid response from AI model"
  | .returned (some none) => chatFallback
  | .returned (some (some t)) =>
    if t = "" || pyStrip t = "" then chatFallback
    else remove_markdown_formatting (pyStrip t)

/-! ## File ingestion adapter (`core/services.py`,
`GeminiService.upload_file_stateless`) -/

/-- A Gemini file reference as returned by `upload_file` / `get_file`:
resource name, URI, and the processing-state name string. -/
structure UploadRef where
  name : String
  uri : String
  state : String
deriving DecidableEq, Repr

/-- The polling loop of `upload_file_stateless`:
`while file_ref.state.name == 'PROCESSING' and waited < max_wait`,
with `max_wait = 60` and `waited` advancing by 2 per iteration, i.e.
at most 30 `get_file` calls; `poll i` is the outcome of the `i`-th
`get_file` call (value or raised message). -/
def pollLoop (poll : Nat → Except String UploadRef) :
    Nat → Nat → UploadRef → Except String UploadRef
  | 0, _, r => .ok r
  | fuel + 1, i, r =>
    if r.state = "PROCESSING" then
      match poll i with
      | .error e => .error e
      | .ok r2 => pollLoop poll fuel (i + 1) r2
    else .ok r

/-- The result dictionary built by `upload_file_stateless` on success. -/
structure FileHandle where
  resource_name : String
  uri : String
  file_path : String
  filename : String
  mime_type : String
deriving DecidableEq, Repr

/-- `os.path.basename` for forward-slash paths. -/
def basename (p : String) : String := (p.splitOn "/").getLastD ""

/-- `GeminiService.upload_file_stateless`: missing local file → `None`;
upload exception → `None` (caught); poll until not `PROCESSING` or the
60-second budget runs out; `FAILED` or any non-`ACTIVE` final state →
`None`; poll exception → `None` (caught); else the handle. -/
def upload_file_stateless (fileExists : Bool)
    (upload : Except String UploadRef)
    (poll : Nat → Except String UploadRef)
    (filepath mimetype : String) : Option FileHandle :=
  if fileExists = false then none
  else
    match upload with
    | .error _ => none
    | .ok r0 =>
      match pollLoop poll 30 0 r0 with
      | .error _ => none
      | .ok r =>
        if r.state = "FAILED" then none
        else if r.state = "ACTIVE" then
          some ⟨r.name, r.uri, filepath, basename filepath, mimetype⟩
        else none

/-! ## Quiz generation adapter (`core/services.py`,
`GeminiService.generate_quiz`) -/

/-- Is `pat` a leading segment of the list? -/
def isLeadingSeg : List Char → List Char → Bool
  | [], _ => true
  | _ :: _, [] => false
  | p :: ps, c :: cs => p = c && isLeadingSeg ps cs

/-- Python `str.replace(pat, '')`: delete every non-overlapping
occurrence, left to right. -/
def pyDeleteAll (pat : List Char) : Nat → List Char → List Char
  | 0, l => l
  | _ + 1, [] => []
  | fuel + 1, c :: cs =>
    if pat.isEmpty = false && isLeadingSeg pat (c :: cs) then
      pyDeleteAll pat fuel ((c :: cs).drop pat.length)
    else c :: pyDeleteAll pat fuel cs

/-- Python `needle in hay` for strings (substring test). -/
def containsSubL (needle : List Char) : List Char → Bool
  | [] => needle.isEmpty
  | c :: cs => isLeadingSeg needle (c :: cs) || containsSubL needle cs

/-- The quota detection of `generate_quiz`'s exception handler:
`msg = str(e).lower()`;
`any(keyword in msg for keyword in ["quota", "429", "resource_exhausted"])`. -/
def isQuotaMsg (msg : String) : Bool :=
  let m := msg.data.map Char.toLower
  containsSubL "quota".data m || containsSubL "429".data m ||
    containsSubL "resource_exhausted".data m

/-- `raw_response.replace("```json", "").replace("```", "").strip()`. -/
def stripFences (raw : String) : String :=
  let l1 := pyDeleteAll "```json".data (raw.data.length + 1) raw.data
  let l2 := pyDeleteAll "```".data (l1.length + 1) l1
  String.mk (pyStripL l2)

/-- A parsed JSON value as far as `generate_quiz`'s validation looks at
it: a list of items, or anything else. -/
inductive PyJson where
  | list (items : List PyJson)
  | other

/-- The value `generate_quiz` hands back to its caller: a parsed
question list, the generic failure sentinel `None`, or the dictionary
`{"_error": "quota_exceeded"}`. -/
inductive QuizResult where
  | questions (items : List PyJson)
  | failure
  | quotaExceeded

/-- The `json.loads` step and the list validation of `generate_quiz`:
a `JSONDecodeError` (carrying its message) yields the failure sentinel,
as does a parse result that is not a non-empty list. -/
def validate_quiz_json (parse : String → Except String PyJson)
    (cleanText : String) : QuizResult :=
  match parse cleanText with
  | .error _ => .failure
  | .ok (.list items) => if items.isEmpty then .failure else .questions items
  | .ok .other => .failure

/-- `GeminiService.generate_quiz`'s response processing and exception
handling. `outcome` is the model call (exception message, or
`response.text`, where `none` models `text` being `None` — the code
substitutes `""` via `response.text or ""`). `extract` is the oracle
for `re.search(r'[JSON-array pattern]', raw).group(0)` and `parse` for
`json.loads`. -/
def generate_quiz (extract : String → Option String)
    (parse : String → Except String PyJson)
    (outcome : Except String (Option String)) : QuizResult :=
  match outcome with
  | .error e => if isQuotaMsg e then .quotaExceeded else .failure
  | .ok t =>
    match extract (stripFences (t.getD "")) with
    | none => .failure
    | some cleanText => validate_quiz_json parse cleanText

/-- `GenerateQuizView.post`'s mapping of the adapter result to an HTTP
status (views.py lines 716-726): the quota sentinel → 429, a falsy
result (`None` or empty list) → 500, else 200 with the questions. -/
def quiz_view_status : QuizResult → Nat
  | .quotaExceeded => 429
  | .failure => 500
  | .questions items => if items.isEmpty then 500 else 200

/-! ## Progress update handler (`core/views.py`,
`UpdateProgressView.post`) -/

/-- The field names of the `FileProgress` model (models.py lines
255-283; besides the implicit primary key `id`). -/
def fileProgressFields : List String :=
  ["id", "user", "uploaded_file", "pages_read", "total_pages",
   "read_percentage", "is_completed", "completed_at", "started_at",
   "last_read", "total_read_time_minutes"]

/-- A stored `FileProgress` row (the fields the handler would touch). -/
structure FPRow where
  uploaded_file : Int
  pages_read : Int
  total_pages : Int
  read_percentage : Int
  is_completed : Bool
deriving DecidableEq, Repr

/-- The request body fields `UpdateProgressView.post` reads.
`data.get('fileid')` yields `none` when the key is absent. -/
structure UPRequest where
  fileid : Option Int
  courseid : Option Int
deriving DecidableEq, Repr

/-- Python truthiness of `data.get(...)` for a JSON id:
`if not fileid` rejects both `None` and `0`. -/
def truthyId : Option Int → Bool
  | none => false
  | some n => n ≠ 0

/-- The stored state the handler can read or write: the caller's
uploaded-file and course ids, and the progress rows. -/
structure ProgressDb where
  fileIds : List Int
  courseIds : List Int
  fileProgress : List FPRow
  courseProgress : List CourseProgressS
deriving DecidableEq, Repr

/-- `FileProgress.objects.get_or_create(user=user, uploadedfile=...)`:
a keyword argument that is not a field of the model makes the ORM raise
`FieldError` before touching the database; a valid keyword returns the
existing row or inserts a fresh one with the model defaults. -/
def fp_get_or_create (kw : String) (db : ProgressDb) (fid : Int) :
    Except String ProgressDb :=
  if fileProgressFields.contains kw then
    .ok { db with fileProgress :=
      if db.fileProgress.any (fun r => r.uploaded_file = fid) then db.fileProgress
      else db.fileProgress ++ [⟨fid, 0, 1, 0, false⟩] }
  else .error "FieldError: cannot resolve keyword into field"

/-- The handler's response classes. -/
inductive UPStatus
  | badRequest
  | notFound
  | serverError
  | ok
deriving DecidableEq, Repr

/-- `UpdateProgressView.post` (views.py lines 573-653): validate ids
(400), resolve the file and course (404), then call
`FileProgress.objects.get_or_create` with the keyword `uploadedfile` —
which is not a `FileProgress` field, so the ORM raises `FieldError`,
the catch-all `except Exception` answers 500, and nothing was written.
(The continuation after a successful `get_or_create` is modelled as
reaching the success response; it is unreachable.) -/
def update_progress_view (req : UPRequest) (db : ProgressDb) :
    UPStatus × ProgressDb :=
  if !(truthyId req.fileid) || !(truthyId req.courseid) then (.badRequest, db)
  else
    let fid := req.fileid.getD 0
    let cid := req.courseid.getD 0
    if !(db.fileIds.contains fid) || !(db.courseIds.contains cid) then (.notFound, db)
    else
      match fp_get_or_create "uploadedfile" db fid with
      | .error _ => (.serverError, db)
      | .ok db2 => (.ok, db2)

/-! ## Helper lemmas -/

/-- One retention upsert never stores more than 100. -/
theorem retention_step_le_100 (o : Option Nat) : retention_step o ≤ 100 := by
  cases o with
  | none => decide
  | some s => exact Nat.min_le_left 100 (s + 5)

/-- One retention upsert of an in-range score never decreases it. -/
theorem le_retention_step (s : Nat) (h : s ≤ 100) : s ≤ retention_step (some s) := by
  simp only [retention_step]
  exact Nat.le_min.mpr ⟨h, Nat.le_add_right s 5⟩

/-- If every successful `get_file` call reports `PROCESSING`, the poll
loop either raises or ends with a `PROCESSING` reference. -/
theorem pollLoop_processing (poll : Nat → Except String UploadRef)
    (hpoll : ∀ j r2, poll j = .ok r2 → r2.state = "PROCESSING") :
    ∀ (fuel i : Nat) (r : UploadRef), r.state = "PROCESSING" →
      (∃ e, pollLoop poll fuel i r = .error e) ∨
      (∃ r3, pollLoop poll fuel i r = .ok r3 ∧ r3.state = "PROCESSING") := by
  intro fuel
  induction fuel with
  | zero => intro i r hr; exact Or.inr ⟨r, rfl, hr⟩
  | succ n ih =>
    intro i r hr
    simp only [pollLoop, hr, if_pos]
    cases hp : poll i with
    | error e => exact Or.inl ⟨e, rfl⟩
    | ok r2 => exact ih (i + 1) r2 (hpoll i r2 hp)

/-! ## Claim theorems -/

/-- C1: the claim says `update_user_stats_on_chat` leaves the streak
unchanged when the stored last-activity date is today, increments it
when it is yesterday, and resets it to 1 otherwise.  The code assigns
`last_activity_date = timezone.now()` BEFORE reading it back for the
comparison, so the comparison always sees today and the streak never
changes: with streak 3 and last activity yesterday (day 99, today day
100), the code keeps 3 while the claimed behaviour gives 4 — and in
general the streak is left untouched for every input. -/
theorem C1_streak_never_changes :
    ((update_streak 100 ⟨3, some 99⟩).current_streak = 3 ∧
      (update_streak_spec 100 ⟨3, some 99⟩).current_streak = 4) ∧
    ∀ (today : Nat) (s : UserStatsS),
      (update_streak today s).current_streak = s.current_streak := by
  refine ⟨⟨by decide, by decide⟩, ?_⟩
  intro today s
  simp [update_streak]

/-- C2 counterexample: `calculate_score` computes
`int((correct_count / total) * 100)`, which truncates; with 2 correct
answers out of 3 questions it stores 66, while the claimed
`round(100 * 2 / 3)` is 67. -/
theorem C2_score_not_rounded :
    calculate_score [⟨some 0⟩, ⟨some 0⟩, ⟨some 0⟩] [("0", 0), ("1", 0)] = 66 ∧
    correct_count [⟨some 0⟩, ⟨some 0⟩, ⟨some 0⟩] [("0", 0), ("1", 0)] = 2 ∧
    roundPct 2 3 = 67 ∧
    calculate_score [⟨some 0⟩, ⟨some 0⟩, ⟨some 0⟩] [("0", 0), ("1", 0)] ≠
      roundPct 2 3 := by
  refine ⟨by decide, by decide, by decide, by decide⟩

/-- C2 amended: for every quiz attempt over a non-empty question list,
`calculate_score` sets `percentage = (100 * correct_count) / total`
with TRUNCATING integer division (not rounding); an attempt matching
every question's `correct` index scores 100, and an empty or entirely
non-matching answer map scores 0. -/
theorem C2_calculate_score (qs : List QQuestion) (ans : List (String × Int))
    (hne : qs ≠ []) :
    calculate_score qs ans = (100 * correct_count qs ans) / qs.length ∧
    ((∀ p ∈ qs.enum, answerMatches ans p = true) → calculate_score qs ans = 100) ∧
    (ans = [] → calculate_score qs ans = 0) ∧
    ((∀ p ∈ qs.enum, answerMatches ans p = false) → calculate_score qs ans = 0) := by
  have hempty : qs.isEmpty = false := by
    cases qs with
    | nil => exact absurd rfl hne
    | cons a l => rfl
  have hlen : 0 < qs.length := List.length_pos.mpr hne
  refine ⟨by simp [calculate_score, hempty], ?_, ?_, ?_⟩
  · intro hall
    have hcnt : correct_count qs ans = qs.length := by
      have := List.countP_eq_length.mpr hall
      simpa [correct_count, List.enum_length] using this
    simp [calculate_score, hempty, hcnt, Nat.mul_div_cancel 100 hlen]
  · intro hnil
    subst hnil
    have hzero : ∀ p ∈ qs.enum, ¬ answerMatches [] p = true := by
      intro p _
      simp [answerMatches, lookupAnswer]
    have hcnt : correct_count qs [] = 0 := List.countP_eq_zero.mpr hzero
    simp [calculate_score, hempty, hcnt]
  · intro hall
    have hzero : ∀ p ∈ qs.enum, ¬ answerMatches ans p = true := by
      intro p hp
      simp [hall p hp]
    have hcnt : correct_count qs ans = 0 := List.countP_eq_zero.mpr hzero
    simp [calculate_score, hempty, hcnt]

/-- C2 witness: a single-question quiz answered correctly scores 100,
obtained from `C2_calculate_score` at a concrete input. -/
theorem C2_calculate_score_witness :
    calculate_score [⟨some 1⟩] [("0", 1)] = 100 :=
  (C2_calculate_score [⟨some 1⟩] [("0", 1)] (by decide)).2.1 (by decide)

/-- C3 counterexample: `progress_percentage` is NOT clamped to
`[0, 100]`.  A course-progress row with 1 total file and 1 completed
file (itself reachable by one `mark_completed`) reaches 200 percent on
a second `mark_completed`, because `completed_files` is incremented
unconditionally and `update_progress` performs no clamping. -/
theorem C3_percentage_not_clamped :
    (CourseProgressS.mark_completed_step ⟨1, 1, 100, "completed"⟩).progress_percentage
        = 200 ∧
    ¬ (CourseProgressS.mark_completed_step ⟨1, 1, 100, "completed"⟩).progress_percentage
        ≤ 100 := by
  refine ⟨by decide, by decide⟩

/-- C3 amended: after `update_progress`, `progress_percentage` equals
`(100 * completed_files) / total_files` (0 when `total_files` is 0),
and it lies in `[0, 100]` WHENEVER `completed_files ≤ total_files`;
no clamping is performed, so the bound can fail when `mark_completed`
pushes `completed_files` above `total_files`. -/
theorem C3_percentage_bounded (p : CourseProgressS)
    (h : p.completed_files ≤ p.total_files) :
    (CourseProgressS.update_progress p).progress_percentage =
      (if p.total_files > 0 then (100 * p.completed_files) / p.total_files else 0) ∧
    (CourseProgressS.update_progress p).progress_percentage ≤ 100 := by
  refine ⟨rfl, ?_⟩
  show (if p.total_files > 0 then (100 * p.completed_files) / p.total_files else 0) ≤ 100
  by_cases ht : p.total_files > 0
  · simp only [ht, if_pos]
    exact Nat.div_le_of_le_mul (by omega)
  · simp [ht]

/-- C3 witness: `C3_percentage_bounded` at a half-completed course. -/
theorem C3_percentage_bounded_witness :
    (CourseProgressS.update_progress ⟨2, 1, 0, "x"⟩).progress_percentage =
      (if (2 : Nat) > 0 then (100 * 1) / 2 else 0) ∧
    (CourseProgressS.update_progress ⟨2, 1, 0, "x"⟩).progress_percentage ≤ 100 :=
  C3_percentage_bounded ⟨2, 1, 0, "x"⟩ (by decide)

/-- C4: `update_progress` sets the percentage to
`(100 * completed_files) / total_files` (truncating division; 0 when
`total_files` is 0), gives exactly 100 with status `completed` when
`completed_files = total_files > 0`, and derives the status purely
from the percentage by the thresholds 0 → `not_started`,
100 → `completed`, otherwise `in_progress`. -/
theorem C4_update_progress (p : CourseProgressS) :
    ((CourseProgressS.update_progress p).progress_percentage =
      if p.total_files > 0 then (100 * p.completed_files) / p.total_files else 0) ∧
    (p.total_files = 0 →
      (CourseProgressS.update_progress p).progress_percentage = 0) ∧
    (p.completed_files = p.total_files → 0 < p.total_files →
      (CourseProgressS.update_progress p).progress_percentage = 100 ∧
      (CourseProgressS.update_progress p).status = "completed") ∧
    ((CourseProgressS.update_progress p).status =
      if (CourseProgressS.update_progress p).progress_percentage = 0 then "not_started"
      else if (CourseProgressS.update_progress p).progress_percentage = 100 then "completed"
      else "in_progress") := by
  refine ⟨rfl, ?_, ?_, ?_⟩
  · intro h0
    simp [CourseProgressS.update_progress, h0]
  · intro heq hpos
    have hpct : (if p.total_files > 0 then (100 * p.completed_files) / p.total_files else 0)
        = 100 := by
      rw [heq]
      simp [hpos, Nat.mul_div_cancel 100 hpos]
    constructor
    · exact hpct
    · show (if (if p.total_files > 0 then (100 * p.completed_files) / p.total_files else 0) = 0
          then "not_started"
          else if (if p.total_files > 0 then (100 * p.completed_files) / p.total_files else 0) = 100
          then "completed" else "in_progress") = "completed"
      rw [hpct]
      decide
  · rfl

/-- C4 witness: `C4_update_progress` at a fully completed 3-file
course: percentage 100 and status `completed`. -/
theorem C4_update_progress_witness :
    (CourseProgressS.update_progress ⟨3, 3, 0, "x"⟩).progress_percentage = 100 ∧
    (CourseProgressS.update_progress ⟨3, 3, 0, "x"⟩).status = "completed" :=
  (C4_update_progress ⟨3, 3, 0, "x"⟩).2.2.1 rfl (by decide)

/-- C5: along any sequence of same-day chat turns the stored retention
score is monotonically non-decreasing and never exceeds 100 (each turn
replaces the score by `min(100, score + 5)`, or creates it at 15). -/
theorem C5_retention_monotone_bounded (n : Nat) :
    (∀ s, retention_after (n + 1) = some s → s ≤ 100) ∧
    (∀ s s2, retention_after (n + 1) = some s →
      retention_after (n + 2) = some s2 → s ≤ s2) := by
  constructor
  · intro s hs
    have : retention_after (n + 1) = some (retention_step (retention_after n)) := rfl
    rw [this] at hs
    injection hs with h
    rw [← h]
    exact retention_step_le_100 _
  · intro s s2 hs hs2
    have h1 : retention_after (n + 1) = some (retention_step (retention_after n)) := rfl
    have h2 : retention_after (n + 2) = some (retention_step (retention_after (n + 1))) := rfl
    rw [h1] at hs
    injection hs with hs
    rw [h2, h1, hs] at hs2
    injection hs2 with hs2
    have hb : s ≤ 100 := by
      rw [← hs]
      exact retention_step_le_100 _
    rw [← hs2]
    exact le_retention_step s hb

/-- C5 witness: after the first turn the score is 15 ≤ 100, and the
second turn raises it to 20 ≥ 15, from
`C5_retention_monotone_bounded` at concrete turn counts. -/
theorem C5_retention_witness : (15 : Nat) ≤ 100 ∧ (15 : Nat) ≤ 20 :=
  ⟨(C5_retention_monotone_bounded 0).1 15 (by decide),
   (C5_retention_monotone_bounded 0).2 15 20 (by decide) (by decide)⟩

/-- The parse-and-validate step yields either the failure sentinel or
a non-empty question list. -/
theorem validate_quiz_json_cases (parse : String → Except String PyJson)
    (clean : String) :
    validate_quiz_json parse clean = .failure ∨
    ∃ items, validate_quiz_json parse clean = .questions items ∧
      items.isEmpty = false := by
  unfold validate_quiz_json
  cases parse clean with
  | error m => exact Or.inl rfl
  | ok v =>
    cases v with
    | other => exact Or.inl rfl
    | list items =>
      by_cases hi : items.isEmpty
      · exact Or.inl (by simp [hi])
      · exact Or.inr ⟨items, by simp [hi], by simpa using hi⟩

/-- When the model call succeeds, `generate_quiz` returns either the
generic failure sentinel or a non-empty question list — never the
quota sentinel. -/
theorem generate_quiz_ok_cases (extract : String → Option String)
    (parse : String → Except String PyJson) (t : Option String) :
    generate_quiz extract parse (.ok t) = .failure ∨
    ∃ items, generate_quiz extract parse (.ok t) = .questions items ∧
      items.isEmpty = false := by
  have hg : generate_quiz extract parse (.ok t) =
      (match extract (stripFences (t.getD "")) with
       | none => QuizResult.failure
       | some clean => validate_quiz_json parse clean) := rfl
  rw [hg]
  cases extract (stripFences (t.getD "")) with
  | none => exact Or.inl rfl
  | some clean => exact validate_quiz_json_cases parse clean

/-- C6: `generate_quiz` never raises (it is a total function into its
result type); it returns the quota sentinel exactly when the model
call raised an exception whose lower-cased message contains one of the
substrings `quota`, `429`, `resource_exhausted`; any returned question
list is non-empty; and `GenerateQuizView.post` answers HTTP 429
exactly on the quota sentinel, which is distinct from the generic
failure sentinel. -/
theorem C6_generate_quiz_sentinels (extract : String → Option String)
    (parse : String → Except String PyJson)
    (outcome : Except String (Option String)) :
    (generate_quiz extract parse outcome = .quotaExceeded ↔
      ∃ e, outcome = .error e ∧ isQuotaMsg e = true) ∧
    (∀ items, generate_quiz extract parse outcome = .questions items →
      items ≠ []) ∧
    (quiz_view_status (generate_quiz extract parse outcome) = 429 ↔
      generate_quiz extract parse outcome = .quotaExceeded) ∧
    QuizResult.quotaExceeded ≠ QuizResult.failure := by
  have hnotfail : QuizResult.quotaExceeded ≠ QuizResult.failure := by
    intro h
    exact QuizResult.noConfusion h
  have hcases :
      ∀ t, generate_quiz extract parse (.ok t) = .failure ∨
        ∃ items, generate_quiz extract parse (.ok t) = .questions items ∧
          items.isEmpty = false :=
    generate_quiz_ok_cases extract parse
  refine ⟨?_, ?_, ?_, hnotfail⟩
  · cases outcome with
    | error e =>
      by_cases hq : isQuotaMsg e = true
      · simp [generate_quiz, hq]
      · constructor
        · intro h
          simp [generate_quiz, hq] at h
        · rintro ⟨e2, he2, hq2⟩
          injection he2 with he2
          rw [← he2] at hq2
          exact absurd hq2 hq
    | ok t =>
      constructor
      · intro h
        rcases hcases t with hf | ⟨items, hqs, _⟩
        · rw [h] at hf
          exact absurd hf hnotfail
        · rw [h] at hqs
          exact QuizResult.noConfusion hqs
      · rintro ⟨e, he, _⟩
        exact Except.noConfusion he
  · intro items h
    cases outcome with
    | error e =>
      by_cases hq : isQuotaMsg e = true <;> simp [generate_quiz, hq] at h
    | ok t =>
      rcases hcases t with hf | ⟨items2, hqs, hne⟩
      · rw [h] at hf
        exact QuizResult.noConfusion hf
      · rw [h] at hqs
        injection hqs with hqs
        rw [hqs]
        simpa using hne
  · cases hg : generate_quiz extract parse outcome with
    | quotaExceeded => simp [quiz_view_status]
    | failure =>
      simp only [quiz_view_status]
      constructor
      · intro h
        exact absurd h (by decide)
      · intro h
        exact absurd h.symm hnotfail
    | questions items =>
      simp only [quiz_view_status]
      constructor
      · intro h
        by_cases hi : items.isEmpty <;> simp [hi] at h
      · intro h
        exact QuizResult.noConfusion h

/-- C6 witness: with an extractor/parser pair yielding a one-element
list, the adapter hands back exactly that non-empty question list. -/
theorem C6_generate_quiz_witness : ([PyJson.other] : List PyJson) ≠ [] :=
  (C6_generate_quiz_sentinels (fun s => some s)
      (fun _ => .ok (.list [.other])) (.ok (some "x"))).2.1 [.other] rfl

/-- C7: the chat adapter always returns a string: a raised remote-call
exception becomes the textual response `"Error: <message>"` (never
propagated), and missing (`None`) or whitespace-only model output
yields the fixed non-empty fallback string instead of an error. -/
theorem C7_chat_always_string (msg t : String) :
    (chat (.raised msg) = "Error: " ++ msg) ∧
    (chat (.returned (some none)) = chatFallback) ∧
    (pyStrip t = "" → chat (.returned (some (some t))) = chatFallback) ∧
    chatFallback ≠ "" := by
  refine ⟨rfl, rfl, ?_, by decide⟩
  intro h
  simp [chat, h]

/-- C7 witness: whitespace-only model output produces the fallback,
from `C7_chat_always_string` at a concrete input. -/
theorem C7_chat_witness : chat (.returned (some (some "  "))) = chatFallback :=
  (C7_chat_always_string "x" "  ").2.2.1 (by decide)

/-- C8: `upload_file_stateless` never raises (it is total into
`Option`); it returns a populated resource handle exactly when the
local file exists, the upload call returned, and the bounded poll loop
(at most 30 `get_file` calls for the 60-second budget) ended with an
`ACTIVE` state; an upload exception yields `none`; and a file that
polls `PROCESSING` forever exhausts the wait budget and yields
`none`. -/
theorem C8_upload_active_iff (fe : Bool) (up : Except String UploadRef)
    (poll : Nat → Except String UploadRef) (fp mt : String) :
    ((upload_file_stateless fe up poll fp mt).isSome = true ↔
      fe = true ∧ ∃ r0 r, up = .ok r0 ∧ pollLoop poll 30 0 r0 = .ok r ∧
        r.state = "ACTIVE") ∧
    (∀ e, up = .error e → upload_file_stateless fe up poll fp mt = none) ∧
    (∀ r0, up = .ok r0 → r0.state = "PROCESSING" →
      (∀ j r2, poll j = .ok r2 → r2.state = "PROCESSING") →
      upload_file_stateless fe up poll fp mt = none) := by
  refine ⟨?_, ?_, ?_⟩
  · cases fe with
    | false => simp [upload_file_stateless]
    | true =>
      cases up with
      | error e => simp [upload_file_stateless]
      | ok r0 =>
        cases hp : pollLoop poll 30 0 r0 with
        | error e =>
          simp [upload_file_stateless, hp]
        | ok r =>
          by_cases hf : r.state = "FAILED"
          · simp [upload_file_stateless, hp, hf]
          · by_cases ha : r.state = "ACTIVE"
            · simp [upload_file_stateless, hp, hf, ha]
            · simp [upload_file_stateless, hp, hf, ha]
  · intro e he
    subst he
    cases fe <;> simp [upload_file_stateless]
  · intro r0 hup hst hpoll
    subst hup
    rcases pollLoop_processing poll hpoll 30 0 r0 hst with ⟨e, he⟩ | ⟨r3, h3, hs3⟩
    · cases fe <;> simp [upload_file_stateless, he]
    · cases fe <;> simp [upload_file_stateless, h3, hs3]

/-- C8 witness: a file that stays `PROCESSING` through every poll is
reported as `none` after the bounded wait, from
`C8_upload_active_iff` at a concrete environment. -/
theorem C8_upload_witness :
    upload_file_stateless true (.ok ⟨"files/a", "u", "PROCESSING"⟩)
      (fun _ => .ok ⟨"files/a", "u", "PROCESSING"⟩) "a/b.pdf" "application/pdf"
      = none :=
  (C8_upload_active_iff true (.ok ⟨"files/a", "u", "PROCESSING"⟩)
      (fun _ => .ok ⟨"files/a", "u", "PROCESSING"⟩) "a/b.pdf"
      "application/pdf").2.2 ⟨"files/a", "u", "PROCESSING"⟩ rfl rfl
    (fun j r2 h => by injection h with h2; rw [← h2])

/-- C9 counterexample: the markdown stripper is NOT idempotent on every
input containing `**bold**`, `# heading`, backtick code and `- bullet`
markers: on `"**b**\n# h\n`c`\n- w\n- 1. z"` (which contains all four)
the first application strips the bullet of the last line and exposes a
numbered-list prefix `1. `, which only a second application removes,
because the numbered-list pass runs before the bullet pass. -/
theorem C9_not_idempotent :
    remove_markdown_formatting "**b**\n# h\n`c`\n- w\n- 1. z"
        = "b\nh\nc\nw\n1. z" ∧
    remove_markdown_formatting
        (remove_markdown_formatting "**b**\n# h\n`c`\n- w\n- 1. z")
        = "b\nh\nc\nw\nz" ∧
    remove_markdown_formatting
        (remove_markdown_formatting "**b**\n# h\n`c`\n- w\n- 1. z") ≠
      remove_markdown_formatting "**b**\n# h\n`c`\n- w\n- 1. z" := by
  refine ⟨by decide, by decide, by decide⟩

/-- C9 amended: the stripper is not idempotent in general — stripping
one marker can expose a line-leading marker whose pass has already run
(see `C9_not_idempotent`) — but on the representative input containing
exactly a `**bold**` span, a `# heading` line, a backtick code span and
a `- bullet` line, with no stacked markers, applying it twice yields
the same output as applying it once. -/
theorem C9_idempotent_on_plain_markers :
    remove_markdown_formatting "**bold**\n# heading\n`code`\n- bullet"
        = "bold\nheading\ncode\nbullet" ∧
    remove_markdown_formatting
        (remove_markdown_formatting "**bold**\n# heading\n`code`\n- bullet")
        = remove_markdown_formatting "**bold**\n# heading\n`code`\n- bullet" := by
  refine ⟨by decide, by decide⟩

/-- C10: every update-progress POST whose ids are present (truthy) and
resolve to the caller's own file and course is answered with the
generic error envelope (HTTP 500) and leaves the stored progress rows
untouched: the handler addresses `FileProgress` through the keyword
`uploadedfile`, which is not a field of the model (`uploaded_file`
is), so the ORM raises `FieldError` into the catch-all handler before
anything is written. -/
theorem C10_update_progress_serverError (req : UPRequest) (db : ProgressDb)
    (hf : truthyId req.fileid = true) (hc : truthyId req.courseid = true)
    (hfid : db.fileIds.contains (req.fileid.getD 0) = true)
    (hcid : db.courseIds.contains (req.courseid.getD 0) = true) :
    update_progress_view req db = (.serverError, db) := by
  have hfid2 : req.fileid.getD 0 ∈ db.fileIds := by
    simpa using hfid
  have hcid2 : req.courseid.getD 0 ∈ db.courseIds := by
    simpa using hcid
  have hkw : "uploadedfile" ∉ fileProgressFields := by decide
  simp [update_progress_view, hf, hc, hfid2, hcid2, fp_get_or_create, hkw]

/-- C10 witness: a well-formed request against a database holding the
referenced file and course, via `C10_update_progress_serverError`. -/
theorem C10_update_progress_witness :
    update_progress_view ⟨some 1, some 2⟩ ⟨[1], [2], [], []⟩ =
      (UPStatus.serverError, ⟨[1], [2], [], []⟩) :=
  C10_update_progress_serverError ⟨some 1, some 2⟩ ⟨[1], [2], [], []⟩
    (by decide) (by decide) (by decide) (by decide)

end StudyFlow
